import Mathlib

/-!
Shallow embedding of the browser-automation core (page snapshotter,
selector ranker, action executor with retry, goal loop, and the
rule-based fallback command parser) of the repository, together with
theorems about the properties its specification states.

Conventions of the embedding:
* JS strings are Lean `String`s; an absent DOM attribute (JS `null` or
  the empty string, both falsy) is modelled as `""` unless noted.
* Asynchronous browser primitives that may reject are modelled by an
  environment function `Env : Op → Nat → Except String String` giving,
  for each primitive operation and each retry attempt number, either a
  thrown error message or the selector string the primitive resolved.
* JS `try { ... } catch` is modelled with `Except String`.
-/

namespace E2E

/-! ## Action executor retry machinery (`executeActionWithRetry`) -/

/-- Outcome of running `executeActionWithRetry`: the final result (ok value
or the last thrown error), how many times the action body was invoked,
the "Retrying action" broadcast messages emitted, and the waits (in ms)
performed between attempts. -/
structure RetryOut (α : Type) where
  result : Except String α
  attemptsMade : Nat
  retryNotifs : List String
  delays : List Nat
deriving Repr

/-- The broadcast message `Retrying action (attempt A/M)` from the source. -/
def retryMsg (nextAttempt maxRetries : Nat) : String :=
  "Retrying action (attempt " ++ toString nextAttempt ++ "/" ++ toString maxRetries ++ ")"

/-- The `for (let attempt = 1; attempt <= maxRetries; attempt++)` loop of
`executeActionWithRetry`, structurally recursive on the number of remaining
attempts.  On failure with attempts remaining it broadcasts a retry
notification and waits `1000 * attempt` ms; exhausting all attempts
surfaces the last error. -/
def retryGo (act : Nat → Except String α) (maxRetries attempt remaining : Nat)
    (lastErr : String) : RetryOut α :=
  match remaining with
  | 0 => ⟨.error lastErr, 0, [], []⟩
  | r + 1 =>
    match act attempt with
    | .ok a => ⟨.ok a, 1, [], []⟩
    | .error e =>
      if r = 0 then ⟨.error e, 1, [], []⟩
      else
        let rest := retryGo act maxRetries (attempt + 1) r e
        ⟨rest.result, rest.attemptsMade + 1,
         retryMsg (attempt + 1) maxRetries :: rest.retryNotifs,
         1000 * attempt :: rest.delays⟩

/-- `executeActionWithRetry(action, maxRetries = 3)` from the source. -/
def executeActionWithRetry (act : Nat → Except String α) (maxRetries : Nat := 3) : RetryOut α :=
  retryGo act maxRetries 1 maxRetries ""

end E2E

namespace E2E

/-- A concrete retried action used to witness the retry theorem: fails on
attempts 1 and 2, succeeds on attempt 3. -/
def retryDemoAct : Nat → Except String Nat :=
  fun n => if n = 3 then .ok 42 else .error "boom"

/-! ## JS string primitives

Modelled on character lists so that every definition is kernel-reducible
(the built-in `String` functions do not reduce). -/

/-- `s` starts with `pat` (character-list version). -/
def charsStarts : List Char → List Char → Bool
  | [], _ => true
  | _ :: _, [] => false
  | c :: cs, d :: ds => c == d && charsStarts cs ds

/-- `pat` occurs contiguously in `s`; models `String.prototype.includes`
for nonempty needles. -/
def charsContains (pat : List Char) : List Char → Bool
  | [] => pat.isEmpty
  | c :: rest => charsStarts pat (c :: rest) || charsContains pat rest

/-- `s.includes(pat)`. -/
def jsIncludes (s pat : String) : Bool :=
  charsContains pat.data s.data

/-- JS whitespace for `trim` (the subset relevant to this program). -/
def jsWS (c : Char) : Bool :=
  c == ' ' || c == '\t' || c == '\n' || c == '\r'

/-- `s.trim()`. -/
def jsTrim (s : String) : String :=
  ⟨((s.data.dropWhile jsWS).reverse.dropWhile jsWS).reverse⟩

/-- `s.toLowerCase()` (ASCII, which is all this program compares). -/
def jsToLower (s : String) : String :=
  ⟨s.data.map Char.toLower⟩

/-- Split a character list on a separator character, keeping empty pieces,
like `String.prototype.split(" ")`. -/
def splitOnChar (sep : Char) : List Char → List (List Char)
  | [] => [[]]
  | c :: rest =>
    let r := splitOnChar sep rest
    if c == sep then [] :: r
    else
      match r with
      | [] => [[c]]
      | h :: t => (c :: h) :: t

/-- `s.split(" ")`. -/
def jsSplitSpace (s : String) : List String :=
  (splitOnChar ' ' s.data).map String.mk

/-- `s.substring(0, n)`. -/
def jsTake (s : String) (n : Nat) : String :=
  ⟨s.data.take n⟩

/-- `s.length` (code points; the program only measures ASCII text). -/
def jsLen (s : String) : Nat :=
  s.data.length

/-- A `\w` word character: `[A-Za-z0-9_]`. -/
def wordChar (c : Char) : Bool :=
  c.isAlpha || c.isDigit || c == '_'

/-- The "safe identifier" regex `^[a-zA-Z][\w-]*$` used for ids and class
names in `getOptimalSelector` and `getClassNames`. -/
def safeIdent (s : String) : Bool :=
  match s.data with
  | [] => false
  | c :: rest => c.isAlpha && rest.all (fun ch => wordChar ch || ch == '-')

/-! ## DOM element model and the Selector Ranker (`getOptimalSelector`) -/

/-- The parent-element facts consulted by the `nth-child` selector branch of
`getOptimalSelector`: the parent's tag/id/class, how many of the parent's
children share the element's tag, and the element's 1-based position among
those same-tag siblings (`siblings.indexOf(element) + 1`). -/
structure ParentInfo where
  tagName : String
  id : String
  className : String
  sameTagSiblings : Nat
  sameTagIndex : Nat
deriving Repr, DecidableEq

/-- One DOM element as consulted by the in-page scan.  String attribute
fields hold `""` when the attribute is absent (JS `null`/`""`, both falsy).
`matchesInteractiveQuery` records whether `document.querySelectorAll`'s
fixed "likely interactive" query selects the element, and `rect*`/style
fields record the browser-computed geometry and styles. -/
structure DomElem where
  tagName : String
  id : String
  className : String
  nameAttr : String
  typeAttr : String
  role : String
  ariaLabel : String
  dataTestId : String
  dataTest : String
  placeholder : String
  textContent : String
  hasOnclick : Bool
  hasNgClick : Bool
  hasAtClick : Bool
  cursor : String
  display : String
  visibilityStyle : String
  opacity : String
  offsetParentNull : Bool
  rectX : Int
  rectY : Int
  rectW : Int
  rectH : Int
  matchesInteractiveQuery : Bool
  parent : Option ParentInfo
deriving Repr, DecidableEq

/-- `getClassNames` on a raw class string: split on spaces, keep tokens that
are nonempty, contain no `:`, and match the safe-identifier pattern.
(The SVG `className.baseVal` branch applies the same split and filter.) -/
def getClassNamesStr (className : String) : List String :=
  if className == "" then []
  else (jsSplitSpace className).filter
    (fun c => c != "" && !(jsIncludes c ":") && safeIdent c)

/-- `getClassNames(element)`. -/
def getClassNames (e : DomElem) : List String :=
  getClassNamesStr e.className

/-- A candidate selector with its robustness score. -/
structure Scored where
  selector : String
  score : Nat
deriving Repr, DecidableEq

/-- Descending-score order used by `selectors.sort((a, b) => b.score - a.score)`. -/
def ScoredLE (a b : Scored) : Prop :=
  b.score ≤ a.score

instance : DecidableRel ScoredLE := fun a b => Nat.decLe b.score a.score

instance : IsTotal Scored ScoredLE := ⟨fun a b => Nat.le_total b.score a.score⟩

instance : IsTrans Scored ScoredLE := ⟨fun _ _ _ h1 h2 => Nat.le_trans h2 h1⟩

/-- `classNames.slice(0, 2).join(".")`. -/
def joinDots : List String → String
  | [] => ""
  | [c] => c
  | c :: rest => c ++ "." ++ joinDots rest

/-- The candidate selectors pushed by `getOptimalSelector` after the `id`
branch, in source order, with the source's scores (95 down to 50). -/
def nonIdCandidates (e : DomElem) : List Scored :=
  let tagName := jsToLower e.tagName
  let classNames := getClassNames e
  let text := jsTrim e.textContent
  (if e.dataTestId != "" then
    [⟨"[data-testid=\"" ++ e.dataTestId ++ "\"]", 95⟩] else []) ++
  (if e.dataTest != "" then
    [⟨"[data-test=\"" ++ e.dataTest ++ "\"]", 94⟩] else []) ++
  (if e.ariaLabel != "" then
    [⟨"[aria-label=\"" ++ e.ariaLabel ++ "\"]", 90⟩] else []) ++
  (if e.nameAttr != "" && e.tagName == "INPUT" then
    [⟨"input[name=\"" ++ e.nameAttr ++ "\"]", 85⟩] else []) ++
  (if e.role != "" && text != "" && jsLen text < 50 then
    [⟨"[role=\"" ++ e.role ++ "\"]:has-text(\"" ++ text ++ "\")", 80⟩] else []) ++
  (if classNames.length > 0 then
    [⟨tagName ++ "." ++ joinDots (classNames.take 2), 70⟩] else []) ++
  (if text != "" && jsLen text > 2 && jsLen text < 50 && !(jsIncludes text "\n") &&
      (tagName == "button" || tagName == "a") then
    [⟨tagName ++ ":has-text(\"" ++ text ++ "\")", 75⟩] else []) ++
  (match e.parent with
   | none => []
   | some p =>
     if p.sameTagSiblings > 1 then
       let parentSelector :=
         if p.id != "" then "#" ++ p.id
         else
           match getClassNamesStr p.className with
           | [] => jsToLower p.tagName
           | c :: _ => jsToLower p.tagName ++ "." ++ c
       [⟨parentSelector ++ " > " ++ tagName ++ ":nth-child(" ++
          toString p.sameTagIndex ++ ")", 60⟩]
     else []) ++
  (if e.placeholder != "" then
    [⟨"[placeholder=\"" ++ e.placeholder ++ "\"]", 65⟩] else []) ++
  (if e.typeAttr == "submit" || e.typeAttr == "button" then
    [⟨"[type=\"" ++ e.typeAttr ++ "\"]", 50⟩] else [])

/-- The full candidate selector list built by `getOptimalSelector`, in
source order: the score-100 `#id` candidate (when the id is nonempty and
matches the safe pattern) followed by the lower-scored candidates. -/
def selectorCandidates (e : DomElem) : List Scored :=
  (if e.id != "" && safeIdent e.id then [⟨"#" ++ e.id, 100⟩] else []) ++
  nonIdCandidates e

/-- The primary/fallback/tertiary selector triple returned by
`getOptimalSelector`; `none` models the JS `null` for an unfilled slot. -/
structure SelectorTriple where
  primary : Option String
  fallback : Option String
  tertiary : Option String
deriving Repr, DecidableEq

/-- `getOptimalSelector(element)`: sort candidates by descending score (the
sort is modelled by a stable insertion sort, as JS engines' `Array.sort`
is stable), keep the top three selectors. -/
def getOptimalSelector (e : DomElem) : SelectorTriple :=
  let sorted := List.insertionSort ScoredLE (selectorCandidates e)
  let optimal := (sorted.take 3).map (·.selector)
  ⟨optimal[0]?, optimal[1]?, optimal[2]?⟩

/-! ## Page snapshotter (`getCurrentPageSnapshot`) -/

/-- `isElementInteractive(element)` from the in-page scan. -/
def isElementInteractive (e : DomElem) : Bool :=
  let tagName := jsToLower e.tagName
  tagName == "button" || tagName == "a" || tagName == "input" ||
  tagName == "select" || tagName == "textarea" ||
  e.typeAttr == "submit" || e.typeAttr == "button" ||
  e.role == "button" || e.role == "link" || e.role == "tab" ||
  e.role == "menuitem" ||
  e.hasOnclick || e.hasNgClick || e.hasAtClick ||
  (getClassNames e).any (fun c => c == "btn" || c == "button") ||
  e.cursor == "pointer"

/-- The page viewport dimensions (`window.innerWidth`/`innerHeight`). -/
structure Viewport where
  innerWidth : Int
  innerHeight : Int
deriving Repr, DecidableEq

/-- The `isVisible` check of `processElement`: non-zero box intersecting
the viewport, and not hidden by display/visibility/opacity/offset-parent. -/
def isVisibleElem (vp : Viewport) (e : DomElem) : Bool :=
  e.rectW > 0 && e.rectH > 0 &&
  e.rectY < vp.innerHeight && e.rectY + e.rectH > 0 &&
  e.rectX < vp.innerWidth && e.rectX + e.rectW > 0 &&
  e.display != "none" && e.visibilityStyle != "hidden" &&
  e.opacity != "0" && !e.offsetParentNull

/-- The fields of a snapshot Element Descriptor that the claims consult:
tag, truncated text, id and test-id (read back by the executor),
interactability, viewport membership, vertical position, and the ranked
selector triple. -/
structure SnapElem where
  tag : String
  text : String
  id : String
  dataTestId : String
  isInteractable : Bool
  inViewport : Bool
  y : Int
  selectors : SelectorTriple
deriving Repr, DecidableEq

/-- `processElement(element)`: `none` when the element fails the visibility
check, otherwise the Element Descriptor (text trimmed then truncated to
100 characters, `inViewport` meaning the box lies fully inside the
viewport vertically). -/
def processElement (vp : Viewport) (e : DomElem) : Option SnapElem :=
  if !(isVisibleElem vp e) then none
  else some
    { tag := jsToLower e.tagName
      text := jsTake (jsTrim e.textContent) 100
      id := e.id
      dataTestId := e.dataTestId
      isInteractable := isElementInteractive e
      inViewport := decide (e.rectY ≥ 0 ∧ e.rectY + e.rectH ≤ vp.innerHeight)
      y := e.rectY
      selectors := getOptimalSelector e }

/-- The first scan pass: every element matched by the fixed
"likely interactive" `querySelectorAll` query, processed and kept when
visible.  (`processedElements` dedups by identity; `querySelectorAll`
returns each element once, so the pass is a filter over the document.) -/
def firstPass (vp : Viewport) (dom : List DomElem) : List SnapElem :=
  (dom.filter (·.matchesInteractiveQuery)).filterMap (processElement vp)

/-- One step of the generic second pass over `document.querySelectorAll("*")`:
skip elements already processed by the first pass and stop growing at 100
entries; otherwise include any visible element with non-empty text. -/
def genericPassStep (vp : Viewport) (acc : List SnapElem) (e : DomElem) :
    List SnapElem :=
  if e.matchesInteractiveQuery || acc.length ≥ 100 then acc
  else
    match processElement vp e with
    | some d => if jsLen d.text > 0 then acc ++ [d] else acc
    | none => acc

/-- Both scan passes: the interactive-query pass, then the generic pass
over all remaining DOM elements. -/
def scanElements (vp : Viewport) (dom : List DomElem) : List SnapElem :=
  dom.foldl (genericPassStep vp) (firstPass vp dom)

/-- The comparison `snapshot.elements.sort(...)` uses, as a total preorder:
interactable before non-interactable, then in-viewport before
out-of-viewport, then ascending vertical position. -/
def elemLE (a b : SnapElem) : Bool :=
  if a.isInteractable != b.isInteractable then a.isInteractable
  else if a.inViewport != b.inViewport then a.inViewport
  else decide (a.y ≤ b.y)

/-- `elemLE` as a relation, for the sort. -/
def ElemOrd (a b : SnapElem) : Prop :=
  elemLE a b = true

instance : DecidableRel ElemOrd := fun a b => instDecidableEqBool (elemLE a b) true

instance : IsTotal SnapElem ElemOrd := by
  constructor
  intro a b
  simp only [ElemOrd, elemLE]
  cases hai : a.isInteractable <;> cases hbi : b.isInteractable <;>
    cases hav : a.inViewport <;> cases hbv : b.inViewport <;>
      simp <;> omega

instance : IsTrans SnapElem ElemOrd := by
  constructor
  intro a b c hab hbc
  simp only [ElemOrd, elemLE] at *
  cases hai : a.isInteractable <;> cases hbi : b.isInteractable <;>
    cases hci : c.isInteractable <;> cases hav : a.inViewport <;>
      cases hbv : b.inViewport <;> cases hcv : c.inViewport <;>
        simp_all <;> omega

/-- The final element list of one snapshot: scan, sort, truncate to 75. -/
def snapshotElements (vp : Viewport) (dom : List DomElem) : List SnapElem :=
  (List.insertionSort ElemOrd (scanElements vp dom)).take 75

/-- An Element Descriptor with its assigned ordinal `index`
(`snapshot.elements.forEach((el, index) => el.index = index)`). -/
structure IdxElem where
  index : Nat
  elem : SnapElem
deriving Repr, DecidableEq

/-- The snapshot's element list with the dense `index` field assigned. -/
def indexedElements (vp : Viewport) (dom : List DomElem) : List IdxElem :=
  (snapshotElements vp dom).enum.map (fun p => ⟨p.1, p.2⟩)

/-- The ordering the spec states for adjacent-in-order snapshot elements:
interactable strictly precedes non-interactable; within equal
interactability in-viewport precedes out-of-viewport; remaining ties are
in ascending vertical position. -/
def SnapOrder (a b : SnapElem) : Prop :=
  (b.isInteractable → a.isInteractable) ∧
  (a.isInteractable = b.isInteractable → b.inViewport → a.inViewport) ∧
  (a.isInteractable = b.isInteractable → a.inViewport = b.inViewport →
    a.y ≤ b.y)

/-! ## Action executor (`executeAction`) -/

/-- The oracle's structured reply.  `value` and `selector` hold `""` for a
missing field (falsy, filtered by `.filter(Boolean)`); `waitAfter` holds
the value of the JS test `decision.waitAfter !== false`. -/
structure Decision where
  action : String
  target : String
  value : String
  selector : String
  fallbackSelectors : List String
  waitBefore : Bool
  waitAfter : Bool
  reasoning : String
  description : String
  confidence : String
deriving Repr, DecidableEq

/-- Leading digits of a character list, or `none` when there are none
(`parseInt` yielding `NaN`). -/
def parseDigits (l : List Char) : Option Nat :=
  let ds := l.takeWhile Char.isDigit
  if ds.isEmpty then none
  else some (ds.foldl (fun acc c => 10 * acc + (c.toNat - '0'.toNat)) 0)

/-- `parseInt(s)`: skip leading whitespace, optional sign, leading digit
run; `none` models `NaN`. -/
def jsParseInt (s : String) : Option Int :=
  match s.data.dropWhile jsWS with
  | '-' :: rest => (parseDigits rest).map (fun n => -(n : Int))
  | '+' :: rest => (parseDigits rest).map (fun n => (n : Int))
  | rest => (parseDigits rest).map (fun n => (n : Int))

/-- `pageSnapshot.elements[i]` for a `parseInt`-ed index: `undefined`
(`none`) for `NaN` or an out-of-range index. -/
def elemAt (elements : List SnapElem) : Option Int → Option SnapElem
  | none => none
  | some n =>
    if h : 0 ≤ n ∧ n.toNat < elements.length then some (elements.get ⟨n.toNat, h.2⟩)
    else none

/-- How the parsed index prints inside `Element index ... not found`
(`NaN` for a failed parse). -/
def idxDisplay : Option Int → String
  | none => "NaN"
  | some n => toString n

/-- The browser primitives the executor awaits.  `clickOp`/`typeOp`/
`clearOp`/`hoverOp` stand for the whole retried closure (find element over
the candidate selectors, scroll into view, interact). -/
inductive Op where
  | navOp (url : String)
  | clickOp (selectors : List String)
  | typeOp (selectors : List String) (value : String)
  | clearOp (selectors : List String)
  | pressOp (key : String)
  | waitOp (ms : Int)
  | scrollOp (amount : Int)
  | hoverOp (selectors : List String)
  | stability
deriving Repr, DecidableEq

/-- The environment: for a primitive operation and a retry attempt number,
either the thrown error message or the selector the primitive resolved. -/
def Env : Type :=
  Op → Nat → Except String String

/-- Run one primitive under the executor's 3-attempt retry policy. -/
def withRetry (env : Env) (op : Op) : RetryOut String :=
  executeActionWithRetry (fun attempt => env op attempt) 3

/-- `s.startsWith(pat)`. -/
def jsStarts (s pat : String) : Bool :=
  charsStarts pat.data s.data

/-- Drop falsy entries (`undefined`/`null`/`""`), as `.filter(Boolean)`. -/
def filt (l : List (Option String)) : List String :=
  (l.filterMap id).filter (fun s => s != "")

/-- The candidate selector list for `click`: oracle selector, the element's
ranked triple, oracle fallbacks; then the element's id and test-id are
unshifted to the front (test-id first, then id, after both unshifts). -/
def clickSelectors (d : Decision) (el : SnapElem) : List String :=
  let sels := filt ([some d.selector, el.selectors.primary, el.selectors.fallback,
    el.selectors.tertiary] ++ d.fallbackSelectors.map some)
  let sels := if el.id != "" then ("#" ++ el.id) :: sels else sels
  if el.dataTestId != "" then
    ("[data-testid=\"" ++ el.dataTestId ++ "\"]") :: sels
  else sels

/-- The candidate selector list for `type`: oracle selector, primary and
fallback selectors, oracle fallbacks (no tertiary, no unshifts). -/
def typeSelectors (d : Decision) (el : SnapElem) : List String :=
  filt ([some d.selector, el.selectors.primary, el.selectors.fallback] ++
    d.fallbackSelectors.map some)

/-- The candidate selector list for `clear` and `hover`: oracle selector,
primary and fallback selectors. -/
def shortSelectors (d : Decision) (el : SnapElem) : List String :=
  filt [some d.selector, el.selectors.primary, el.selectors.fallback]

/-- One generated replay-script line, modelled structurally (the source
formats these as Playwright code strings). -/
inductive PlayCode where
  | emptyLine
  | goto (url : String)
  | clickSel (selector : String)
  | fillSel (selector value : String)
  | pressKey (key : String)
  | waitFor (ms : Int)
  | scrollBy (amount : Int)
  | hoverSel (selector : String)
  | completeGoal (goal : String)
  | failed (description error : String)
deriving Repr, DecidableEq

/-- One Execution History Entry, as pushed by `executeAction`. -/
structure ExecResult where
  action : String
  target : String
  value : String
  description : String
  success : Bool
  error : String
  reasoning : String
  confidence : String
  playwrightCode : PlayCode
deriving Repr, DecidableEq

/-- A telemetry notification emitted by the executor. -/
inductive Telemetry where
  | actionStart (action description : String)
  | retry (message : String)
  | actionComplete (result : ExecResult)
deriving Repr, DecidableEq

/-- What the `try` body of `executeAction` produces: either a thrown error
message, or the `success` flag together with the replay-script line; plus
the primitive operations performed (with how many attempts each took) and
the retry notifications emitted. -/
structure BodyOut where
  res : Except String (Bool × PlayCode)
  ops : List (Op × Nat)
  retryTel : List String
deriving Repr

/-- The `switch (decision.action)` body of `executeAction`, one case per
action kind, including the `clear`/`hover` cases that skip silently when
the target index resolves to no element. -/
def runBody (env : Env) (goal : String) (d : Decision) (els : List SnapElem) :
    BodyOut :=
  if d.action == "navigate" then
    let url := if jsStarts d.target "http" then d.target else "https://" ++ d.target
    let r := withRetry env (.navOp url)
    match r.result with
    | .error e => ⟨.error e, [(.navOp url, r.attemptsMade)], r.retryNotifs⟩
    | .ok _ =>
      ⟨.ok (true, .goto url), [(.navOp url, r.attemptsMade), (.stability, 1)],
       r.retryNotifs⟩
  else if d.action == "click" then
    match elemAt els (jsParseInt d.target) with
    | none =>
      ⟨.error ("Element index " ++ idxDisplay (jsParseInt d.target) ++ " not found"),
       [], []⟩
    | some el =>
      let sels := clickSelectors d el
      let r := withRetry env (.clickOp sels)
      match r.result with
      | .error e => ⟨.error e, [(.clickOp sels, r.attemptsMade)], r.retryNotifs⟩
      | .ok usedSel =>
        ⟨.ok (true, .clickSel usedSel), [(.clickOp sels, r.attemptsMade)],
         r.retryNotifs⟩
  else if d.action == "type" then
    match elemAt els (jsParseInt d.target) with
    | none =>
      ⟨.error ("Element index " ++ idxDisplay (jsParseInt d.target) ++ " not found"),
       [], []⟩
    | some el =>
      let sels := typeSelectors d el
      let r := withRetry env (.typeOp sels d.value)
      match r.result with
      | .error e => ⟨.error e, [(.typeOp sels d.value, r.attemptsMade)], r.retryNotifs⟩
      | .ok usedSel =>
        ⟨.ok (true, .fillSel usedSel d.value),
         [(.typeOp sels d.value, r.attemptsMade)], r.retryNotifs⟩
  else if d.action == "clear" then
    match elemAt els (jsParseInt d.target) with
    | none => ⟨.ok (false, .emptyLine), [], []⟩
    | some el =>
      let sels := shortSelectors d el
      let r := withRetry env (.clearOp sels)
      match r.result with
      | .error e => ⟨.error e, [(.clearOp sels, r.attemptsMade)], r.retryNotifs⟩
      | .ok usedSel =>
        ⟨.ok (true, .fillSel usedSel ""), [(.clearOp sels, r.attemptsMade)],
         r.retryNotifs⟩
  else if d.action == "press" then
    let r := withRetry env (.pressOp d.target)
    match r.result with
    | .error e => ⟨.error e, [(.pressOp d.target, r.attemptsMade)], r.retryNotifs⟩
    | .ok _ =>
      ⟨.ok (true, .pressKey d.target), [(.pressOp d.target, r.attemptsMade)],
       r.retryNotifs⟩
  else if d.action == "wait" then
    let ms : Int :=
      match jsParseInt d.value with
      | some n => if n = 0 then 3000 else n
      | none => 3000
    ⟨.ok (true, .waitFor ms), [(.waitOp ms, 1)], []⟩
  else if d.action == "scroll" then
    let amount : Int :=
      match jsParseInt d.value with
      | some n => if n = 0 then 300 else n
      | none => 300
    let r := withRetry env (.scrollOp amount)
    match r.result with
    | .error e => ⟨.error e, [(.scrollOp amount, r.attemptsMade)], r.retryNotifs⟩
    | .ok _ =>
      ⟨.ok (true, .scrollBy amount),
       [(.scrollOp amount, r.attemptsMade), (.waitOp 1000, 1)], r.retryNotifs⟩
  else if d.action == "hover" then
    match elemAt els (jsParseInt d.target) with
    | none => ⟨.ok (false, .emptyLine), [], []⟩
    | some el =>
      let sels := shortSelectors d el
      let r := withRetry env (.hoverOp sels)
      match r.result with
      | .error e => ⟨.error e, [(.hoverOp sels, r.attemptsMade)], r.retryNotifs⟩
      | .ok usedSel =>
        ⟨.ok (true, .hoverSel usedSel), [(.hoverOp sels, r.attemptsMade)],
         r.retryNotifs⟩
  else if d.action == "complete" then
    ⟨.ok (true, .completeGoal goal), [], []⟩
  else
    ⟨.error ("Unknown action: " ++ d.action), [], []⟩

/-- `Except.isOk` (local, to keep everything reducible). -/
def exOk : Except String (Bool × PlayCode) → Bool
  | .ok _ => true
  | .error _ => false

/-- Everything `executeAction` produces: the result object, the history
with the result appended, the telemetry notifications, and the primitive
operation trace. -/
structure ExecOutput where
  result : ExecResult
  history : List ExecResult
  telemetry : List Telemetry
  ops : List (Op × Nat)
deriving Repr

/-- `executeAction(decision, pageSnapshot)` with the page initialized:
optional pre-wait, the switch body in a `try`, the post-action settle
(skipped for `wait`/`complete` or when `waitAfter === false`), the `catch`
that converts any thrown error into `success=false`/`error`, the history
push, and the `action_complete` broadcast. -/
def executeAction (env : Env) (goal : String) (d : Decision) (els : List SnapElem)
    (hist : List ExecResult) : ExecOutput :=
  let pre : List (Op × Nat) := if d.waitBefore then [(.waitOp 2000, 1)] else []
  let b := runBody env goal d els
  let after : List (Op × Nat) :=
    if exOk b.res && d.waitAfter && d.action != "wait" && d.action != "complete" then
      [(.waitOp 1500, 1), (.stability, 1)]
    else []
  let result : ExecResult :=
    { action := d.action
      target := d.target
      value := d.value
      description := d.description
      success := match b.res with | .ok (s, _) => s | .error _ => false
      error := match b.res with | .ok _ => "" | .error e => e
      reasoning := d.reasoning
      confidence := d.confidence
      playwrightCode :=
        match b.res with
        | .ok (_, c) => c
        | .error e => .failed d.description e }
  { result := result
    history := hist ++ [result]
    telemetry := [.actionStart d.action d.description] ++
      b.retryTel.map Telemetry.retry ++ [.actionComplete result]
    ops := pre ++ b.ops ++ after }

/-- `executeAction` including its initial
`if (!this.page) throw new Error("Page not initialized")` guard, as an
`Except` so that an escaping throw is observable. -/
def executeActionE (pageInitialized : Bool) (env : Env) (goal : String)
    (d : Decision) (els : List SnapElem) (hist : List ExecResult) :
    Except String ExecOutput :=
  if !pageInitialized then .error "Page not initialized"
  else .ok (executeAction env goal d els hist)

/-! ## Goal loop (`executeGoal`) -/

/-- The loop state of `executeGoal`: step counter, per-step results,
execution history, and the goal-completed flag. -/
structure LoopState where
  stepCount : Nat
  results : List ExecResult
  history : List ExecResult
  goalCompleted : Bool
deriving Repr

/-- The `while (!goalCompleted && stepCount < maxSteps)` loop, structurally
recursive on the remaining step budget.  Each iteration snapshots,
consults the oracle (`oracle step`), executes, records the result, and
stops when the decision is `complete`.  A failed action only records a
warning; the loop continues. -/
def goalLoop (oracle : Nat → Decision) (env : Nat → Env) (els : List SnapElem)
    (goal : String) : Nat → LoopState → LoopState
  | 0, st => st
  | remaining + 1, st =>
    if st.goalCompleted then st
    else
      let step := st.stepCount + 1
      let d := oracle step
      let out := executeAction (env step) goal d els st.history
      let results := st.results ++ [out.result]
      if d.action == "complete" then ⟨step, results, out.history, true⟩
      else goalLoop oracle env els goal remaining ⟨step, results, out.history, false⟩

/-- `this.maxSteps = 15` from the constructor. -/
def maxStepsDefault : Nat := 15

/-- The final report of `executeGoal` (the non-error path). -/
structure FinalResult where
  success : Bool
  goal : String
  steps : List ExecResult
  totalSteps : Nat
  successfulSteps : Nat
  failedSteps : Nat
  goalCompleted : Bool
  maxStepsSignal : Bool
deriving Repr

/-- `executeGoal(goal)` with a deterministic decision oracle and per-step
environment: run the loop from a fresh state, emit the max-steps signal
when the counter reached the ceiling, and build the final report
(`success: goalCompleted || results.some(r => r.success)`). -/
def executeGoal (oracle : Nat → Decision) (env : Nat → Env) (els : List SnapElem)
    (goal : String) (maxSteps : Nat) : FinalResult :=
  let st := goalLoop oracle env els goal maxSteps ⟨0, [], [], false⟩
  { success := st.goalCompleted || st.results.any (fun r => r.success)
    goal := goal
    steps := st.results
    totalSteps := st.stepCount
    successfulSteps := (st.results.filter (fun r => r.success)).length
    failedSteps := (st.results.filter (fun r => !r.success)).length
    goalCompleted := st.goalCompleted
    maxStepsSignal := decide (st.stepCount ≥ maxSteps) }

/-! ## Rule-based fallback command parser (`fallbackParser`)

The parser's regular expressions are modelled by dedicated structurally
recursive matchers with JS `String.prototype.match` semantics (leftmost
match position, greedy quantifiers) for the specific patterns the source
uses. -/

/-- The structured action object the fallback parser returns. -/
inductive FAction where
  | navigate (url : String)
  | click (selector text : String)
  | typeText (selector text : String)
  | search (query : String)
  | scroll (direction : String)
  | wait (selector : String)
  | screenshot
  | pressKey (key : String)
  | generateTest
  | unknown (message originalInput : String)
deriving Repr, DecidableEq

/-- A character of the `[a-zA-Z0-9.-]` class. -/
def domainChar (c : Char) : Bool :=
  c.isAlpha || c.isDigit || c == '.' || c == '-'

/-- Leading `[a-zA-Z]*` run. -/
def alphaTake (l : List Char) : List Char :=
  l.takeWhile Char.isAlpha

/-- Inside one maximal `[a-zA-Z0-9.-]` run, position `i` is a usable dot for
`[a-zA-Z0-9.-]+\.[a-zA-Z]{2,}`: it holds a `.` with at least one run
character before it and at least two letters after it. -/
def goodDot (run : List Char) (i : Nat) : Bool :=
  decide (1 ≤ i) && ((run.drop i).head? == some '.') &&
    decide (2 ≤ (alphaTake (run.drop (i + 1))).length)

/-- The dot the greedy `+` settles on: the last usable one. -/
def lastGoodDot (run : List Char) : Option Nat :=
  (List.range run.length).reverse.find? (fun i => goodDot run i)

/-- The portion of a maximal `[a-zA-Z0-9.-]` run matched by
`[a-zA-Z0-9.-]+\.[a-zA-Z]{2,}` (greedy), or `none` when the run has no
usable dot.  A match, when one exists, always starts at the run start. -/
def domainMatchInRun (run : List Char) : Option (List Char) :=
  match lastGoodDot run with
  | none => none
  | some i => some (run.take i ++ '.' :: alphaTake (run.drop (i + 1)))

/-- Leftmost match of the navigate URL pattern
`(?:https?:\/\/)?([a-zA-Z0-9.-]+\.[a-zA-Z]{2,}(?:\/[^\s]*)?)`, returning
the capture group.  Scanning skips one character at a time; a failed run
has no successful interior start, so this equals skipping whole runs, and
the optional scheme never changes the capture (`://` breaks a run). -/
def findUrl : List Char → Option (List Char)
  | [] => none
  | c :: rest =>
    match (if domainChar c then
        match domainMatchInRun (c :: rest.takeWhile domainChar) with
        | some m =>
          let run := c :: rest.takeWhile domainChar
          let after := rest.dropWhile domainChar
          some (if decide (m.length = run.length) && (after.head? == some '/') then
              m ++ after.takeWhile (fun ch => !(jsWS ch))
            else m)
        | none => none
      else none) with
    | some r => some r
    | none => findUrl rest

/-- Leftmost match of the bare-token pattern
`([a-zA-Z0-9.-]+\.[a-zA-Z]{2,})` used as the parser's last resort. -/
def findUrlToken : List Char → Option (List Char)
  | [] => none
  | c :: rest =>
    match (if domainChar c then
        domainMatchInRun (c :: rest.takeWhile domainChar)
      else none) with
    | some r => some r
    | none => findUrlToken rest

/-- `url.replace(/^(visit|go to|open|navigate to)\s+/i, "")`: strip one
leading navigation verb followed by whitespace, trying the alternatives in
the regex's order. -/
def stripNavVerb (url : String) : String :=
  let lower := (jsToLower url).data
  let chars := url.data
  let tryVerb : List Char → Option (List Char) := fun v =>
    if charsStarts v lower then
      match lower.drop v.length with
      | c :: _ =>
        if jsWS c then some ((chars.drop v.length).dropWhile jsWS) else none
      | [] => none
    else none
  match tryVerb "visit".data with
  | some r => ⟨r⟩
  | none =>
    match tryVerb "go to".data with
    | some r => ⟨r⟩
    | none =>
      match tryVerb "open".data with
      | some r => ⟨r⟩
      | none =>
        match tryVerb "navigate to".data with
        | some r => ⟨r⟩
        | none => url

/-- `if (!url.startsWith("http")) url = "https://" + url`. -/
def normalizeUrl (url : String) : String :=
  if jsStarts url "http" then url else "https://" ++ url

/-- Match a sequence of literal words separated by `\s+` starting exactly
here (case-insensitively: `lower` is the lowercased text aligned with
`orig`); return the remainder after the last word. -/
def matchWordsHere : List (List Char) → List Char → List Char →
    Option (List Char × List Char)
  | [], orig, lower => some (orig, lower)
  | w :: ws, orig, lower =>
    if charsStarts w lower then
      let orig' := orig.drop w.length
      let lower' := lower.drop w.length
      match ws with
      | [] => some (orig', lower')
      | _ :: _ =>
        let n := (lower'.takeWhile jsWS).length
        if 1 ≤ n then matchWordsHere ws (orig'.drop n) (lower'.drop n) else none
    else none

/-- `\s+(.+)`: at least one whitespace, then a greedy non-newline capture of
at least one character. -/
def plainCap (orig lower : List Char) : Option (List Char) :=
  let n := (lower.takeWhile jsWS).length
  if 1 ≤ n then
    let cap := (orig.drop n).takeWhile (fun ch => ch != '\n')
    if cap.isEmpty then none else some cap
  else none

/-- `\s+Q([^Q]+)Q` for a quote character `Q`. -/
def quoteCap (q : Char) (orig lower : List Char) : Option (List Char) :=
  let n := (lower.takeWhile jsWS).length
  if 1 ≤ n then
    match orig.drop n with
    | [] => none
    | c :: rest =>
      if c == q then
        let cap := rest.takeWhile (fun ch => ch != q)
        if cap.isEmpty then none
        else if (rest.drop cap.length).head? == some q then some cap else none
      else none
  else none

/-- Leftmost-position regex search: at each position try the word sequence
and then the capture continuation; on failure resume one character later. -/
def searchCapture (words : List (List Char))
    (capFn : List Char → List Char → Option (List Char)) :
    List Char → List Char → Option (List Char)
  | [], _ => none
  | _, [] => none
  | oc :: orest, lc :: lrest =>
    match (match matchWordsHere words (oc :: orest) (lc :: lrest) with
      | some (o', l') => capFn o' l'
      | none => none) with
    | some cap => some cap
    | none => searchCapture words capFn orest lrest

/-- Run a word-pattern search over a message (original and lowercased). -/
def runSearch (words : List String)
    (capFn : List Char → List Char → Option (List Char)) (s : String) :
    Option String :=
  (searchCapture (words.map String.data) capFn s.data (jsToLower s).data).map
    String.mk

/-- A single-quote character (`'`). -/
def sq : Char := Char.ofNat 39

/-- `/click(?:\s+on)?\s+(.+)/i`: at the matched `click`, prefer consuming
`\s+on` before the capture, falling back to a plain capture. -/
def clickCapture (s : String) : Option String :=
  runSearch ["click"]
    (fun o l =>
      match (let n := (l.takeWhile jsWS).length
             if 1 ≤ n && charsStarts "on".data (l.drop n) then
               plainCap (o.drop (n + 2)) (l.drop (n + 2))
             else none) with
      | some cap => some cap
      | none => plainCap o l) s

/-- The nine `type` text patterns, tried pattern-major in source order. -/
def typeCapture (s : String) : Option String :=
  match runSearch ["type"] (quoteCap '"') s with
  | some t => some t
  | none =>
    match runSearch ["type"] (quoteCap sq) s with
    | some t => some t
    | none =>
      match runSearch ["type"] plainCap s with
      | some t => some t
      | none =>
        match runSearch ["enter", "text"] (quoteCap '"') s with
        | some t => some t
        | none =>
          match runSearch ["enter", "text"] (quoteCap sq) s with
          | some t => some t
          | none =>
            match runSearch ["enter", "text"] plainCap s with
            | some t => some t
            | none =>
              match runSearch ["input"] (quoteCap '"') s with
              | some t => some t
              | none =>
                match runSearch ["input"] (quoteCap sq) s with
                | some t => some t
                | none => runSearch ["input"] plainCap s

/-- The six `search` query patterns, tried pattern-major in source order. -/
def searchQueryCapture (s : String) : Option String :=
  match runSearch ["search", "for"] (quoteCap '"') s with
  | some t => some t
  | none =>
    match runSearch ["search", "for"] (quoteCap sq) s with
    | some t => some t
    | none =>
      match runSearch ["search", "for"] plainCap s with
      | some t => some t
      | none =>
        match runSearch ["search"] (quoteCap '"') s with
        | some t => some t
        | none =>
          match runSearch ["search"] (quoteCap sq) s with
          | some t => some t
          | none => runSearch ["search"] plainCap s

/-- The scroll-direction ladder over the lowercased message. -/
def scrollDirection (lowerMessage : String) : String :=
  if jsIncludes lowerMessage "up" then "up"
  else if jsIncludes lowerMessage "down" then "down"
  else if jsIncludes lowerMessage "left" then "left"
  else if jsIncludes lowerMessage "right" then "right"
  else "down"

/-- The parser tail from the `scroll` branch on (reached when the earlier
branches fall through). -/
def parseFromScroll (message lowerMessage : String) : FAction :=
  if jsIncludes lowerMessage "scroll" then .scroll (scrollDirection lowerMessage)
  else if jsIncludes lowerMessage "screenshot" || jsIncludes lowerMessage "capture" ||
      jsIncludes lowerMessage "take picture" then .screenshot
  else if jsIncludes lowerMessage "enter" || jsIncludes lowerMessage "press enter" then
    .pressKey "Enter"
  else if jsIncludes lowerMessage "wait" then .wait "*"
  else
    match findUrlToken message.data with
    | some url => .navigate (normalizeUrl ⟨url⟩)
    | none => .unknown message message

/-- The parser tail from the `search` branch on. -/
def parseFromSearch (message lowerMessage : String) : FAction :=
  if jsIncludes lowerMessage "search" then
    match searchQueryCapture message with
    | some q => .search (jsTrim q)
    | none => parseFromScroll message lowerMessage
  else parseFromScroll message lowerMessage

/-- The parser tail from the `click` branch on. -/
def parseFromClick (message lowerMessage : String) : FAction :=
  if jsIncludes lowerMessage "click" then
    let text :=
      match clickCapture message with
      | some t => t
      | none => "clickable element"
    .click "button, a, [role=\x27button\x27]" text
  else if jsIncludes lowerMessage "type" || jsIncludes lowerMessage "enter text" ||
      jsIncludes lowerMessage "input" then
    match typeCapture message with
    | some t => .typeText "input, textarea" (jsTrim t)
    | none => parseFromSearch message lowerMessage
  else parseFromSearch message lowerMessage

/-- `fallbackParser(message)`: the layered verb-pattern ladder.  In the
navigate branch only the first of the three URL patterns is consulted: the
second and third can only match a string in which the first already
matches, and the source's loop returns at the first match. -/
def fallbackParser (message : String) : FAction :=
  let lowerMessage := jsTrim (jsToLower message)
  if jsIncludes lowerMessage "generate test" || jsIncludes lowerMessage "create test" ||
      jsIncludes lowerMessage "test case" || jsIncludes lowerMessage "test code" then
    .generateTest
  else if jsIncludes lowerMessage "navigate" || jsIncludes lowerMessage "go to" ||
      jsIncludes lowerMessage "open" || jsIncludes lowerMessage "visit" then
    match findUrl message.data with
    | some url => .navigate (normalizeUrl (stripNavVerb ⟨url⟩))
    | none => parseFromClick message lowerMessage
  else parseFromClick message lowerMessage

/-- Is the parsed action the explicit `unknown` result? -/
def isUnknownF : FAction → Bool
  | .unknown _ _ => true
  | _ => false

/-- The error text `handleChatMessage` sends for an `unknown` action. -/
def unknownErrText (message : String) : String :=
  "I couldn\x27t understand: \"" ++ message ++
    "\". Try commands like \"visit google.com\", \"scroll down\", " ++
    "\"click button\", \"type hello\", \"generate test cases\", etc."

/-- What `handleChatMessage` does with a parsed action: an `unknown` action
is surfaced to the user as an error and never reaches `executeAction`; any
other action is executed. -/
inductive HandleOut where
  | surfacedError (text : String)
  | executed (a : FAction)
deriving Repr, DecidableEq

/-- The `if (actionCommand.action === "unknown")` dispatch of
`handleChatMessage`. -/
def handleParsed (message : String) : FAction → HandleOut
  | .unknown _ _ => .surfacedError (unknownErrText message)
  | a => .executed a

/-! ## Demo inputs used by witnesses -/

/-- A DOM element with every attribute absent; concrete elements for
witnesses override the relevant fields. -/
def blankElem : DomElem where
  tagName := ""
  id := ""
  className := ""
  nameAttr := ""
  typeAttr := ""
  role := ""
  ariaLabel := ""
  dataTestId := ""
  dataTest := ""
  placeholder := ""
  textContent := ""
  hasOnclick := false
  hasNgClick := false
  hasAtClick := false
  cursor := ""
  display := "block"
  visibilityStyle := "visible"
  opacity := "1"
  offsetParentNull := false
  rectX := 0
  rectY := 0
  rectW := 0
  rectH := 0
  matchesInteractiveQuery := false
  parent := none

/-- A button carrying a safe id together with many competing attributes
(test-id, aria-label, classes, role, type). -/
def demoRankElem : DomElem :=
  { blankElem with
      tagName := "BUTTON"
      id := "main-btn"
      dataTestId := "submit-button"
      ariaLabel := "Main"
      className := "btn primary"
      textContent := "Go"
      typeAttr := "submit"
      role := "button" }

/-- An environment in which every primitive succeeds at once. -/
def demoEnv : Env := fun _ _ => .ok "sel"

/-- An environment in which every primitive rejects with `net down`. -/
def demoFailEnv : Env := fun _ _ => .error "net down"

/-- A plain `press Enter` decision. -/
def basePressDecision : Decision where
  action := "press"
  target := "Enter"
  value := ""
  selector := ""
  fallbackSelectors := []
  waitBefore := false
  waitAfter := true
  reasoning := ""
  description := "press enter"
  confidence := "high"

/-- A `clear` decision whose target index 5 is out of range of an empty
snapshot. -/
def demoClearDecision : Decision :=
  { basePressDecision with
      action := "clear"
      target := "5"
      description := "clear field" }

/-- A `hover` decision whose target index 9 is out of range of an empty
snapshot. -/
def demoHoverDecision : Decision :=
  { basePressDecision with
      action := "hover"
      target := "9"
      description := "hover menu" }

/-- A decision with an action kind outside the closed set. -/
def demoBadDecision : Decision :=
  { basePressDecision with action := "jump" }

/-- A `navigate` decision with a bare host target. -/
def demoNavDecision : Decision :=
  { basePressDecision with action := "navigate", target := "example.com" }

/-- `basePressDecision` with different audit-only fields (reasoning,
description, confidence). -/
def demoPressAudit : Decision :=
  { basePressDecision with
      reasoning := "because"
      description := "other"
      confidence := "low" }

/-- The browser context viewport (1280 × 720) from `initialize`. -/
def demoVp : Viewport := ⟨1280, 720⟩

/-- A visible paragraph with non-empty text that the interactive query does
not match: generic-pass material. -/
def demoTextElem : DomElem :=
  { blankElem with
      tagName := "P"
      textContent := "x"
      rectX := 5
      rectY := 5
      rectW := 10
      rectH := 10 }

/-- A page containing 80 such paragraphs and nothing else. -/
def dom80 : List DomElem := List.replicate 80 demoTextElem

/-- The Element Descriptor `processElement` produces for `demoTextElem`. -/
def demoProcessed : SnapElem :=
  ⟨"p", "x", "", "", false, true, 5, ⟨none, none, none⟩⟩

/-- An oracle stub that never returns `complete`. -/
def demoPressOracle : Nat → Decision := fun _ => basePressDecision

/-- A per-step environment family in which every primitive succeeds. -/
def demoEnvFam : Nat → Env := fun _ => demoEnv

/-! ## Helper lemmas -/

theorem safeIdent_data_ne {s : String} (h : safeIdent s = true) : s.data ≠ [] := by
  intro hnil
  simp [safeIdent, hnil] at h

theorem ne_empty_bne {s : String} (hne : s.data ≠ []) : (s != "") = true := by
  cases s with
  | mk data =>
    cases data with
    | nil => simp at hne
    | cons c cs =>
      simp only [bne_iff_ne, ne_eq]
      intro hEq
      have h2 : (c :: cs : List Char) = [] := congrArg String.data hEq
      simp at h2

theorem all_ite_single {p : Scored → Bool} (cond : Prop) [Decidable cond]
    (x : Scored) (hx : p x = true) :
    (if cond then [x] else []).all p = true := by
  split <;> simp [hx]

theorem nonId_score_le (e : DomElem) : ∀ c ∈ nonIdCandidates e, c.score ≤ 95 := by
  have hall : (nonIdCandidates e).all (fun c => decide (c.score ≤ 95)) = true := by
    rcases hpar : e.parent with _ | p <;>
    · simp only [nonIdCandidates, hpar, List.all_append, Bool.and_eq_true]
      repeat' apply And.intro
      all_goals
        first
          | exact all_ite_single _ _ (by norm_num)
          | (intros; simp_all)
          | simp
  intro c hc
  have := List.all_eq_true.mp hall c hc
  simpa using this

theorem genericStep_append (vp : Viewport) (acc : List SnapElem) (e : DomElem) :
    ∃ s, genericPassStep vp acc e = acc ++ s := by
  unfold genericPassStep
  split_ifs with h1
  · exact ⟨[], by simp⟩
  · rcases hpe : processElement vp e with _ | d
    · simp only [hpe]
      exact ⟨[], by simp⟩
    · simp only [hpe]
      split_ifs with h2
      · exact ⟨[d], rfl⟩
      · exact ⟨[], by simp⟩

theorem foldGeneric_ext (vp : Viewport) (dom : List DomElem) :
    ∀ acc, ∃ t, dom.foldl (genericPassStep vp) acc = acc ++ t := by
  induction dom with
  | nil =>
    intro acc
    exact ⟨[], by simp⟩
  | cons f rest ih =>
    intro acc
    obtain ⟨s, hs⟩ := genericStep_append vp acc f
    obtain ⟨t, htt⟩ := ih (genericPassStep vp acc f)
    refine ⟨s ++ t, ?_⟩
    rw [List.foldl_cons, htt, hs, List.append_assoc]

theorem genericStep_len (vp : Viewport) (acc : List SnapElem) (e : DomElem) :
    (genericPassStep vp acc e).length ≤ max acc.length 100 := by
  unfold genericPassStep
  split_ifs with h1
  · exact Nat.le_max_left _ _
  · rcases hpe : processElement vp e with _ | d
    · simp only [hpe]
      exact Nat.le_max_left _ _
    · simp only [hpe]
      split_ifs with h2
      · have hlt : acc.length < 100 := by
          by_contra hc
          refine h1 ?_
          simp only [Bool.or_eq_true, decide_eq_true_eq]
          exact Or.inr (by omega)
        simp only [List.length_append, List.length_singleton]
        omega
      · exact Nat.le_max_left _ _

theorem foldGeneric_len (vp : Viewport) (dom : List DomElem) :
    ∀ acc, (dom.foldl (genericPassStep vp) acc).length ≤ max acc.length 100 := by
  induction dom with
  | nil =>
    intro acc
    simp
  | cons f rest ih =>
    intro acc
    have h1 := ih (genericPassStep vp acc f)
    have h2 := genericStep_len vp acc f
    rw [List.foldl_cons]
    omega

theorem foldGeneric_mem (vp : Viewport) (dom : List DomElem) :
    ∀ acc, (dom.foldl (genericPassStep vp) acc).length < 100 →
      ∀ e ∈ dom, e.matchesInteractiveQuery = false →
        ∀ d, processElement vp e = some d → 0 < jsLen d.text →
          d ∈ dom.foldl (genericPassStep vp) acc := by
  induction dom with
  | nil =>
    intro acc _ e he
    simp at he
  | cons f rest ih =>
    intro acc hlen e he hq d hpe htext
    rw [List.foldl_cons] at hlen ⊢
    rcases List.mem_cons.mp he with rfl | he'
    · obtain ⟨t, ht⟩ := foldGeneric_ext vp rest (genericPassStep vp acc e)
      have hlen' : (genericPassStep vp acc e).length < 100 := by
        rw [ht] at hlen
        simp only [List.length_append] at hlen
        omega
      obtain ⟨s, hs⟩ := genericStep_append vp acc e
      have haccLen : acc.length < 100 := by
        rw [hs] at hlen'
        simp only [List.length_append] at hlen'
        omega
      have hcond : (e.matchesInteractiveQuery || decide (acc.length ≥ 100)) = false := by
        simp only [hq, Bool.false_or, decide_eq_false_iff_not]
        omega
      have hstep : genericPassStep vp acc e = acc ++ [d] := by
        simp [genericPassStep, hcond, hpe, htext]
      rw [ht, hstep]
      simp
    · exact ih (genericPassStep vp acc f) hlen e he' hq d hpe htext

theorem parseFromScroll_unknown (msg lm m o : String)
    (h : parseFromScroll msg lm = .unknown m o) : m = msg ∧ o = msg := by
  unfold parseFromScroll at h
  repeat' split at h
  all_goals cases h <;> exact ⟨rfl, rfl⟩

theorem parseFromSearch_unknown (msg lm m o : String)
    (h : parseFromSearch msg lm = .unknown m o) : m = msg ∧ o = msg := by
  unfold parseFromSearch at h
  repeat' split at h
  all_goals
    first
      | (exact parseFromScroll_unknown msg lm m o h)
      | (cases h <;> exact ⟨rfl, rfl⟩)

theorem parseFromClick_unknown (msg lm m o : String)
    (h : parseFromClick msg lm = .unknown m o) : m = msg ∧ o = msg := by
  unfold parseFromClick at h
  repeat' split at h
  all_goals
    first
      | (exact parseFromSearch_unknown msg lm m o h)
      | (cases h <;> exact ⟨rfl, rfl⟩)

theorem fallbackParser_unknown (s m o : String)
    (h : fallbackParser s = .unknown m o) : m = s ∧ o = s := by
  simp only [fallbackParser] at h
  repeat' split at h
  all_goals
    first
      | (exact parseFromClick_unknown s (jsTrim (jsToLower s)) m o h)
      | (cases h <;> exact ⟨rfl, rfl⟩)

theorem goalLoop_no_complete (oracle : Nat → Decision) (env : Nat → Env)
    (els : List SnapElem) (goal : String)
    (h : ∀ n, (oracle n).action ≠ "complete") :
    ∀ (remaining : Nat) (st : LoopState), st.goalCompleted = false →
      (goalLoop oracle env els goal remaining st).stepCount =
        st.stepCount + remaining ∧
      (goalLoop oracle env els goal remaining st).goalCompleted = false := by
  intro remaining
  induction remaining with
  | zero =>
    intro st hst
    simp [goalLoop, hst]
  | succ r ih =>
    intro st hst
    have hb : ((oracle (st.stepCount + 1)).action == "complete") = false :=
      beq_eq_false_iff_ne.mpr (h (st.stepCount + 1))
    simp only [goalLoop, hst, Bool.false_eq_true, if_false, hb]
    have h2 := ih ⟨st.stepCount + 1,
      st.results ++ [(executeAction (env (st.stepCount + 1)) goal
        (oracle (st.stepCount + 1)) els st.history).result],
      (executeAction (env (st.stepCount + 1)) goal
        (oracle (st.stepCount + 1)) els st.history).history, false⟩ rfl
    refine ⟨?_, h2.2⟩
    rw [h2.1]
    dsimp only
    omega

theorem sortHeadMax (a : Scored) (l : List Scored) (ha : 95 < a.score)
    (hl : ∀ c ∈ l, c.score ≤ 95) :
    ∃ t, List.insertionSort ScoredLE (a :: l) = a :: t := by
  have hp := List.perm_insertionSort ScoredLE (a :: l)
  obtain ⟨h, t, hht⟩ : ∃ h t, List.insertionSort ScoredLE (a :: l) = h :: t := by
    cases hs : List.insertionSort ScoredLE (a :: l) with
    | nil =>
      rw [hs] at hp
      exact absurd hp.symm (by simp)
    | cons h t => exact ⟨h, t, rfl⟩
  have hsorted := List.sorted_insertionSort ScoredLE (a :: l)
  rw [hht] at hsorted
  have hmem : h ∈ a :: l := hp.subset (hht ▸ List.mem_cons_self h t)
  refine ⟨t, ?_⟩
  rw [hht]
  rcases List.mem_cons.mp hmem with rfl | hmem'
  · rfl
  · have haMem : a ∈ h :: t := by
      rw [← hht]
      exact hp.mem_iff.mpr (List.mem_cons_self a l)
    rcases List.mem_cons.mp haMem with rfl | haT
    · rfl
    · have hle : ScoredLE h a := (List.sorted_cons.mp hsorted).1 a haT
      have := hl h hmem'
      simp only [ScoredLE] at hle
      omega

theorem elemOrd_snapOrder {a b : SnapElem} (h : ElemOrd a b) : SnapOrder a b := by
  simp only [ElemOrd, elemLE] at h
  refine ⟨?_, ?_, ?_⟩ <;>
    cases hai : a.isInteractable <;> cases hbi : b.isInteractable <;>
      cases hav : a.inViewport <;> cases hbv : b.inViewport <;>
        simp_all <;> omega

theorem snapshotElements_pairwise (vp : Viewport) (dom : List DomElem) :
    List.Pairwise SnapOrder (snapshotElements vp dom) := by
  have hs : List.Sorted ElemOrd (List.insertionSort ElemOrd (scanElements vp dom)) :=
    List.sorted_insertionSort ElemOrd (scanElements vp dom)
  have ht : List.Pairwise ElemOrd (snapshotElements vp dom) :=
    hs.sublist (List.take_sublist 75 _)
  exact ht.imp (fun h => elemOrd_snapOrder h)

/-! ## Claim theorems -/

/-- C1: in every snapshot the assigned `index` fields are exactly
`0..len-1`, the element list has at most 75 entries, and it is ordered
with interactable elements before non-interactable ones, in-viewport
before out-of-viewport within equal interactability, and ascending
vertical position for the remaining ties. -/
theorem claim_C1_snapshot_invariant (vp : Viewport) (dom : List DomElem) :
    ((indexedElements vp dom).map (·.index) =
      List.range (indexedElements vp dom).length) ∧
    (indexedElements vp dom).length ≤ 75 ∧
    List.Pairwise SnapOrder ((indexedElements vp dom).map (·.elem)) := by
  refine ⟨?_, ?_, ?_⟩
  · have h1 := List.enum_map_fst (snapshotElements vp dom)
    simp only [indexedElements, List.map_map, List.length_map, List.enum_length]
    exact h1
  · simp only [indexedElements, List.length_map, List.enum_length, snapshotElements]
    exact List.length_take_le 75 _
  · have h2 := List.enum_map_snd (snapshotElements vp dom)
    have : (indexedElements vp dom).map (·.elem) = snapshotElements vp dom := by
      simp only [indexedElements, List.map_map]
      exact h2
    rw [this]
    exact snapshotElements_pairwise vp dom

/-- C7: an element whose id matches the safe-identifier pattern always gets
`#<id>` as the primary selector, whatever other attributes it carries. -/
theorem claim_C7_primary_id (e : DomElem) (h : safeIdent e.id = true) :
    (getOptimalSelector e).primary = some ("#" ++ e.id) := by
  have hne : (e.id != "") = true := ne_empty_bne (safeIdent_data_ne h)
  have hsel : selectorCandidates e = ⟨"#" ++ e.id, 100⟩ :: nonIdCandidates e := by
    simp [selectorCandidates, hne, h]
  obtain ⟨t, hsort⟩ :=
    sortHeadMax ⟨"#" ++ e.id, 100⟩ (nonIdCandidates e) (by norm_num)
      (nonId_score_le e)
  rw [← hsel] at hsort
  simp [getOptimalSelector, hsort]

/-- Witness for C7 at a concrete element carrying a safe id plus a test-id,
aria-label, classes, role and type. -/
theorem claim_C7_primary_id_witness :
    safeIdent demoRankElem.id = true ∧
    (getOptimalSelector demoRankElem).primary = some ("#" ++ demoRankElem.id) :=
  ⟨by decide, claim_C7_primary_id demoRankElem (by decide)⟩

/-- C3: the executor makes at most 3 attempts, the waits between attempts
are `failed attempt number × 1000 ms`, an action failing on the first two
attempts and succeeding on the third yields a successful result with
exactly 2 retry notifications, and an action failing on all 3 attempts
surfaces the last error. -/
theorem claim_C3_retry_policy {α : Type} (act : Nat → Except String α)
    (e1 e2 e3 : String) (a : α) :
    (executeActionWithRetry act 3).attemptsMade ≤ 3 ∧
    (executeActionWithRetry act 3).delays =
      (List.range ((executeActionWithRetry act 3).attemptsMade - 1)).map
        (fun i => 1000 * (i + 1)) ∧
    (act 1 = .error e1 → act 2 = .error e2 → act 3 = .ok a →
      (executeActionWithRetry act 3).result = .ok a ∧
      (executeActionWithRetry act 3).retryNotifs.length = 2) ∧
    (act 1 = .error e1 → act 2 = .error e2 → act 3 = .error e3 →
      (executeActionWithRetry act 3).result = .error e3) := by
  rcases h1 : act 1 with e1' | a1
  · rcases h2 : act 2 with e2' | a2
    · rcases h3 : act 3 with e3' | a3 <;>
        simp [executeActionWithRetry, retryGo, h1, h2, h3] <;> decide
    · simp [executeActionWithRetry, retryGo, h1, h2]
      decide
  · simp [executeActionWithRetry, retryGo, h1]

/-- Witness for C3 at a concrete action failing twice then succeeding. -/
theorem claim_C3_retry_policy_witness :
    (executeActionWithRetry retryDemoAct 3).result = .ok 42 ∧
    (executeActionWithRetry retryDemoAct 3).retryNotifs.length = 2 :=
  (claim_C3_retry_policy retryDemoAct "boom" "boom" "x" 42).2.2.1
    rfl rfl rfl

/-- C2: with the page initialized, `executeAction` never throws outward —
for every decision, snapshot and environment it returns a result object,
and any error thrown inside the body is captured into the result's
`success=false` and `error` fields. -/
theorem claim_C2_executor_never_throws (env : Env) (goal : String) (d : Decision)
    (els : List SnapElem) (hist : List ExecResult) :
    (∃ out, executeActionE true env goal d els hist = .ok out) ∧
    (∀ e, (runBody env goal d els).res = .error e →
      (executeAction env goal d els hist).result.success = false ∧
      (executeAction env goal d els hist).result.error = e) := by
  refine ⟨⟨executeAction env goal d els hist, rfl⟩, ?_⟩
  intro e he
  simp [executeAction, he]

/-- Witness for C2 at a navigate decision in an environment in which every
primitive rejects. -/
theorem claim_C2_executor_never_throws_witness :
    (∃ out, executeActionE true demoFailEnv "g" demoNavDecision [] [] = .ok out) ∧
    ((executeAction demoFailEnv "g" demoNavDecision [] []).result.success = false ∧
     (executeAction demoFailEnv "g" demoNavDecision [] []).result.error = "net down") :=
  ⟨(claim_C2_executor_never_throws demoFailEnv "g" demoNavDecision [] []).1,
   (claim_C2_executor_never_throws demoFailEnv "g" demoNavDecision [] []).2
     "net down" rfl⟩

/-- C5 counterexample: a `clear` decision whose target index 5 is out of
range of the (empty) snapshot produces a failed result whose error message
is empty — contradicting the claim that every failure carries a non-empty
human-readable message. -/
theorem claim_C5_counterexample_empty_error :
    (executeAction demoEnv "g" demoClearDecision [] []).result.success = false ∧
    (executeAction demoEnv "g" demoClearDecision [] []).result.error = "" := by
  exact ⟨rfl, rfl⟩

/-- C5 (amended): every execution result — failures included — is appended
to the history and reported via an `action_complete` telemetry
notification, and a failure that arises from a thrown error carries that
error's message; however `clear` and `hover` decisions whose target index
is out of range yield a failed result whose error message is empty. -/
theorem claim_C5_failure_reporting (env : Env) (goal : String) (d : Decision)
    (els : List SnapElem) (hist : List ExecResult) :
    (executeAction env goal d els hist).history =
      hist ++ [(executeAction env goal d els hist).result] ∧
    Telemetry.actionComplete (executeAction env goal d els hist).result ∈
      (executeAction env goal d els hist).telemetry ∧
    (∀ e, (runBody env goal d els).res = .error e →
      (executeAction env goal d els hist).result.success = false ∧
      (executeAction env goal d els hist).result.error = e) ∧
    ((d.action = "clear" ∨ d.action = "hover") →
      elemAt els (jsParseInt d.target) = none →
      (executeAction env goal d els hist).result.success = false ∧
      (executeAction env goal d els hist).result.error = "") := by
  refine ⟨rfl, ?_, ?_, ?_⟩
  · simp [executeAction]
  · intro e he
    simp [executeAction, he]
  · intro hact hnone
    rcases hact with hact | hact <;>
      simp [executeAction, runBody, hact, hnone]

/-- Witness for C5 (amended) at an unknown-action decision (thrown error
captured with its message) and at an out-of-range hover (failure with
empty error message). -/
theorem claim_C5_failure_reporting_witness :
    ((executeAction demoEnv "g" demoBadDecision [] []).result.success = false ∧
     (executeAction demoEnv "g" demoBadDecision [] []).result.error =
       "Unknown action: jump") ∧
    ((executeAction demoEnv "g" demoHoverDecision [] []).result.success = false ∧
     (executeAction demoEnv "g" demoHoverDecision [] []).result.error = "") :=
  ⟨(claim_C5_failure_reporting demoEnv "g" demoBadDecision [] []).2.2.1
     "Unknown action: jump" rfl,
   (claim_C5_failure_reporting demoEnv "g" demoHoverDecision [] []).2.2.2
     (Or.inr rfl) rfl⟩

/-- C8: two decisions that agree on everything except `reasoning`,
`description` and `confidence` produce the same primitive-operation trace
and the same success/error outcome; the three audit fields are carried
into the result unchanged and never affect control flow. -/
theorem claim_C8_audit_fields_inert (env : Env) (goal : String)
    (els : List SnapElem) (hist : List ExecResult) (d1 d2 : Decision)
    (ha : d1.action = d2.action) (ht : d1.target = d2.target)
    (hv : d1.value = d2.value) (hs : d1.selector = d2.selector)
    (hf : d1.fallbackSelectors = d2.fallbackSelectors)
    (hwb : d1.waitBefore = d2.waitBefore) (hwa : d1.waitAfter = d2.waitAfter) :
    (executeAction env goal d1 els hist).ops =
      (executeAction env goal d2 els hist).ops ∧
    (executeAction env goal d1 els hist).result.success =
      (executeAction env goal d2 els hist).result.success ∧
    (executeAction env goal d1 els hist).result.error =
      (executeAction env goal d2 els hist).result.error ∧
    (executeAction env goal d1 els hist).result.reasoning = d1.reasoning ∧
    (executeAction env goal d1 els hist).result.description = d1.description ∧
    (executeAction env goal d1 els hist).result.confidence = d1.confidence := by
  cases d1
  cases d2
  dsimp only at ha ht hv hs hf hwb hwa
  subst ha ht hv hs hf hwb hwa
  exact ⟨rfl, rfl, rfl, rfl, rfl, rfl⟩

/-- Witness for C8 at two concrete press decisions differing only in
reasoning, description and confidence. -/
theorem claim_C8_audit_fields_inert_witness :
    (executeAction demoEnv "g" basePressDecision [] []).ops =
      (executeAction demoEnv "g" demoPressAudit [] []).ops ∧
    (executeAction demoEnv "g" basePressDecision [] []).result.success =
      (executeAction demoEnv "g" demoPressAudit [] []).result.success ∧
    (executeAction demoEnv "g" basePressDecision [] []).result.error =
      (executeAction demoEnv "g" demoPressAudit [] []).result.error ∧
    (executeAction demoEnv "g" basePressDecision [] []).result.reasoning =
      basePressDecision.reasoning ∧
    (executeAction demoEnv "g" basePressDecision [] []).result.description =
      basePressDecision.description ∧
    (executeAction demoEnv "g" basePressDecision [] []).result.confidence =
      basePressDecision.confidence :=
  claim_C8_audit_fields_inert demoEnv "g" [] [] basePressDecision demoPressAudit
    rfl rfl rfl rfl rfl rfl rfl

/-- C4: when the oracle never returns `complete`, the goal loop runs
exactly `maxSteps` steps (the configured ceiling, 15 by default), reports
`goalCompleted=false`, and emits the max-steps signal. -/
theorem claim_C4_step_ceiling (oracle : Nat → Decision) (env : Nat → Env)
    (els : List SnapElem) (goal : String) (maxSteps : Nat)
    (h : ∀ n, (oracle n).action ≠ "complete") :
    (executeGoal oracle env els goal maxSteps).totalSteps = maxSteps ∧
    (executeGoal oracle env els goal maxSteps).goalCompleted = false ∧
    (executeGoal oracle env els goal maxSteps).maxStepsSignal = true ∧
    maxStepsDefault = 15 := by
  have h2 := goalLoop_no_complete oracle env els goal h maxSteps ⟨0, [], [], false⟩ rfl
  refine ⟨?_, ?_, ?_, rfl⟩
  · simpa [executeGoal] using h2.1
  · simpa [executeGoal] using h2.2
  · simp only [executeGoal]
    rw [h2.1]
    simp

/-- Witness for C4 at a press-only oracle stub run with the default step
ceiling of 15. -/
theorem claim_C4_step_ceiling_witness :
    (executeGoal demoPressOracle demoEnvFam [] "g" 15).totalSteps = 15 ∧
    (executeGoal demoPressOracle demoEnvFam [] "g" 15).goalCompleted = false ∧
    (executeGoal demoPressOracle demoEnvFam [] "g" 15).maxStepsSignal = true ∧
    maxStepsDefault = 15 :=
  claim_C4_step_ceiling demoPressOracle demoEnvFam [] "g" 15
    (fun _ => by simp [demoPressOracle, basePressDecision])

set_option maxRecDepth 4000 in
/-- C6 counterexample: on a page with 80 visible text-bearing paragraphs
and no interactive elements, the scan's element list grows to 80 — past
the claimed cap of 75 — because the generic pass stops only at 100; the
75 cap is applied afterwards by truncation. -/
theorem claim_C6_counterexample_over_cap :
    75 < (scanElements demoVp dom80).length := by decide

/-- C6 (amended): the generic second pass runs regardless of how many
elements the interactive query collected, includes each remaining visible
element with non-empty text only while the running list is below 100
entries (so the list can grow to 100 during scanning, never further), and
the cap of 75 is applied only afterwards, by truncation. -/
theorem claim_C6_generic_pass_cap (vp : Viewport) (dom : List DomElem) :
    (snapshotElements vp dom).length ≤ 75 ∧
    (scanElements vp dom).length ≤ max (firstPass vp dom).length 100 ∧
    ((scanElements vp dom).length < 100 →
      ∀ e ∈ dom, e.matchesInteractiveQuery = false →
        ∀ d, processElement vp e = some d → 0 < jsLen d.text →
          d ∈ scanElements vp dom) := by
  refine ⟨?_, ?_, ?_⟩
  · simp only [snapshotElements]
    exact List.length_take_le 75 _
  · simp only [scanElements]
    exact foldGeneric_len vp dom (firstPass vp dom)
  · simp only [scanElements]
    intro hlen e he hq d hpe htext
    exact foldGeneric_mem vp dom (firstPass vp dom) hlen e he hq d hpe htext

/-- Witness for C6 (amended) at a one-paragraph page: the paragraph's
descriptor is included by the generic pass. -/
theorem claim_C6_generic_pass_cap_witness :
    (scanElements demoVp [demoTextElem]).length < 100 ∧
    demoProcessed ∈ scanElements demoVp [demoTextElem] :=
  ⟨by decide,
   (claim_C6_generic_pass_cap demoVp [demoTextElem]).2.2 (by decide)
     demoTextElem (by decide) (by decide) demoProcessed (by decide) (by decide)⟩

/-- C9: the fallback parser is a total function; whenever it yields the
explicit `unknown` action, that action carries the original input text in
both its `message` and `originalInput` fields, and the caller surfaces an
`unknown` action to the user as an error instead of executing it (every
other action is executed). -/
theorem claim_C9_unknown_surfaced (s : String) :
    (∀ m o, fallbackParser s = .unknown m o → m = s ∧ o = s) ∧
    (isUnknownF (fallbackParser s) = true →
      handleParsed s (fallbackParser s) = .surfacedError (unknownErrText s)) ∧
    (isUnknownF (fallbackParser s) = false →
      handleParsed s (fallbackParser s) = .executed (fallbackParser s)) := by
  refine ⟨?_, ?_, ?_⟩
  · intro m o h
    exact fallbackParser_unknown s m o h
  · intro hu
    cases hfa : fallbackParser s <;> simp_all [isUnknownF, handleParsed]
  · intro hu
    cases hfa : fallbackParser s <;> simp_all [isUnknownF, handleParsed]

/-- Witness for C9 at a command no verb pattern matches. -/
theorem claim_C9_unknown_surfaced_witness :
    fallbackParser "florble" = .unknown "florble" "florble" ∧
    handleParsed "florble" (fallbackParser "florble") =
      .surfacedError (unknownErrText "florble") :=
  ⟨by decide, (claim_C9_unknown_surfaced "florble").2.1 (by decide)⟩

/-- C10: the final report's top-level `success` flag equals
`goalCompleted OR some recorded step succeeded`; in particular it is true
at a run whose single press action succeeds although the goal was never
marked complete. -/
theorem claim_C10_success_flag (oracle : Nat → Decision) (env : Nat → Env)
    (els : List SnapElem) (goal : String) (maxSteps : Nat) :
    (executeGoal oracle env els goal maxSteps).success =
      ((executeGoal oracle env els goal maxSteps).goalCompleted ||
        (executeGoal oracle env els goal maxSteps).steps.any (fun r => r.success)) ∧
    ((executeGoal demoPressOracle demoEnvFam [] "g" 1).success = true ∧
     (executeGoal demoPressOracle demoEnvFam [] "g" 1).goalCompleted = false) :=
  ⟨rfl, rfl, rfl⟩

end E2E
